import Mathlib

/-
Verification of `aten/src/ATen/native/vulkan/api/Pipeline.cpp`:
pipeline-layout and compute-pipeline handle types and their caches.

Modelling conventions:
- Raw Vulkan handles (`VkDevice`, `VkPipelineLayout`, `VkPipeline`,
  `VkPipelineCache`, `VkDescriptorSetLayout`, `VkShaderModule`) are `Nat`,
  with `0` playing the role of `VK_NULL_HANDLE`.
- Native creation calls (`vkCreatePipelineLayout`, `vkCreateComputePipelines`,
  `vkCreatePipelineCache`) are modelled as drawing a fresh handle from a
  monotone allocator counter that starts above every live handle, so a
  newly created resource never aliases a live or previously returned handle.
- Side effects (lock acquisition and release by `std::lock_guard`, native
  create and destroy calls) are recorded in an explicit event trace.
- `std::unordered_map` is modelled as an association list: `find` is the
  first entry whose key compares equal, `insert` appends, `clear` destroys
  every entry.
-/

/-- Trace event: one native call or mutex action performed by the code. -/
inductive Event where
  | lockAcquire
  | lockRelease
  | createPipelineLayout (h : Nat)
  | destroyPipelineLayout (h : Nat)
  | createComputePipeline (h : Nat)
  | destroyComputePipeline (h : Nat)
  | createPipelineCacheObj (h : Nat)
  | destroyPipelineCacheObj (h : Nat)
deriving DecidableEq, Repr

/-- VK_NULL_HANDLE, the empty sentinel for every handle type. -/
def VK_NULL_HANDLE : Nat := 0

/-- Event is a native resource creation. -/
def Event.isCreate : Event → Bool
  | .createPipelineLayout _ => true
  | .createComputePipeline _ => true
  | .createPipelineCacheObj _ => true
  | _ => false

/-- Number of native resource creations in a trace. -/
def creations (ev : List Event) : Nat :=
  ev.countP Event.isCreate

/-- utils::uvec3, a 3-component vector of unsigned integers (data[0..2]). -/
structure uvec3 where
  data0 : Nat
  data1 : Nat
  data2 : Nat
deriving DecidableEq, Repr

/-- Modelled from the spec: `utils::uvec3 operator==` is declared in
`utils/Types.h`, which is not part of the source under study; the spec
states key equality is structural over all three components. -/
def uvec3.beq (a b : uvec3) : Bool :=
  a.data0 == b.data0 && a.data1 == b.data1 && a.data2 == b.data2

/-- ComputePipeline::Descriptor: the three-field compute-pipeline cache key
(pipeline layout reference, shader module reference, launch geometry). -/
structure Descriptor where
  pipeline_layout : Nat
  shader_module : Nat
  local_work_group : uvec3
deriving DecidableEq, Repr

/-- operator==(ComputePipeline::Descriptor, ComputePipeline::Descriptor),
Pipeline.cpp lines 152-159: conjunction over the three fields. -/
def descriptorEq (d1 d2 : Descriptor) : Bool :=
  d1.pipeline_layout == d2.pipeline_layout &&
  d1.shader_module == d2.shader_module &&
  uvec3.beq d1.local_work_group d2.local_work_group

/-- VkSpecializationMapEntry: (constantID, byte offset into pData, size). -/
structure VkSpecializationMapEntry where
  constantID : Nat
  offset : Nat
  size : Nat
deriving DecidableEq, Repr

/-- VkSpecializationInfo as built by the ComputePipeline constructor. -/
structure VkSpecializationInfo where
  mapEntryCount : Nat
  pMapEntries : List VkSpecializationMapEntry
  dataSize : Nat
  pData : uvec3
deriving DecidableEq, Repr

/-- Shader stage bit; only the compute bit is used by this code. -/
inductive VkShaderStageFlagBits where
  | computeBit
  | other
deriving DecidableEq, Repr

/-- VkPipelineShaderStageCreateInfo as built by the ComputePipeline
constructor. -/
structure VkPipelineShaderStageCreateInfo where
  stage : VkShaderStageFlagBits
  module : Nat
  pName : String
  pSpecializationInfo : VkSpecializationInfo
deriving DecidableEq, Repr

/-- VkComputePipelineCreateInfo: a compute pipeline has exactly one shader
stage, held in the single `stage` field. -/
structure VkComputePipelineCreateInfo where
  stage : VkPipelineShaderStageCreateInfo
  layout : Nat
  basePipelineHandle : Nat
deriving DecidableEq, Repr

/-- specialization_map_entires (sic), Pipeline.cpp lines 70-89: three
entries with constant IDs 0, 1, 2, byte offsets offsetof(uvec3, data[i]) =
4*i and size sizeof(u32) = 4. -/
def specialization_map_entires : List VkSpecializationMapEntry :=
  [⟨0, 0, 4⟩, ⟨1, 4, 4⟩, ⟨2, 8, 4⟩]

/-- Read the 32-bit word of a uvec3 at a given byte offset (the datum a
VkSpecializationMapEntry with that offset and size 4 denotes). -/
def uvec3.atByte (v : uvec3) (off : Nat) : Nat :=
  if off = 0 then v.data0
  else if off = 4 then v.data1
  else if off = 8 then v.data2
  else 0

/-- Specialization data built at Pipeline.cpp lines 91-96: three map
entries over the descriptor's local_work_group. -/
def specializationInfoOf (descriptor : Descriptor) : VkSpecializationInfo :=
  { mapEntryCount := 3
    pMapEntries := specialization_map_entires
    dataSize := 12
    pData := descriptor.local_work_group }

/-- The VkComputePipelineCreateInfo assembled by the ComputePipeline
constructor, Pipeline.cpp lines 98-116: a single compute stage at entry
point "main" with the specialization info, over the descriptor's layout. -/
def computePipelineCreateInfo (descriptor : Descriptor) : VkComputePipelineCreateInfo :=
  { stage :=
      { stage := .computeBit
        module := descriptor.shader_module
        pName := "main"
        pSpecializationInfo := specializationInfoOf descriptor }
    layout := descriptor.pipeline_layout
    basePipelineHandle := VK_NULL_HANDLE }

/-- Value of the specialization constant with a given ID: locate the first
map entry with that constantID and read pData at its byte offset. -/
def specConstantValue (info : VkSpecializationInfo) (id : Nat) : Option Nat :=
  (info.pMapEntries.find? (fun e => e.constantID == id)).map
    (fun e => info.pData.atByte e.offset)

/-- PipelineLayout handle type, Pipeline.cpp lines 12-47: owns one native
VkPipelineLayout; device_ and handle_ fields. -/
structure PipelineLayout where
  device_ : Nat
  handle_ : Nat
deriving DecidableEq, Repr

/-- PipelineLayout::PipelineLayout(PipelineLayout&&), lines 35-39: the new
object copies device_ and handle_; the source's handle_ is reset to
VK_NULL_HANDLE. Returns (destination, source after the move). -/
def PipelineLayout.moveCtor (other : PipelineLayout) : PipelineLayout × PipelineLayout :=
  ({ device_ := other.device_, handle_ := other.handle_ },
   { other with handle_ := VK_NULL_HANDLE })

/-- PipelineLayout::~PipelineLayout, lines 41-47: if handle_ is null do
nothing, otherwise call vkDestroyPipelineLayout and set handle_ null.
Returns the emitted events and the object's final field state. -/
def PipelineLayout.destruct (p : PipelineLayout) : List Event × PipelineLayout :=
  if p.handle_ = VK_NULL_HANDLE then
    ([], p)
  else
    ([.destroyPipelineLayout p.handle_], { p with handle_ := VK_NULL_HANDLE })

/-- ComputePipeline handle type, Pipeline.cpp lines 64-139: owns one
native VkPipeline; device_ and handle_ fields. -/
structure ComputePipeline where
  device_ : Nat
  handle_ : Nat
deriving DecidableEq, Repr

/-- ComputePipeline::ComputePipeline(ComputePipeline&&), lines 127-131:
copies device_ and handle_, resets the source's handle_ to
VK_NULL_HANDLE. Returns (destination, source after the move). -/
def ComputePipeline.moveCtor (other : ComputePipeline) : ComputePipeline × ComputePipeline :=
  ({ device_ := other.device_, handle_ := other.handle_ },
   { other with handle_ := VK_NULL_HANDLE })

/-- ComputePipeline::~ComputePipeline, lines 133-139: if handle_ is null
do nothing, otherwise call vkDestroyPipeline and set handle_ null. -/
def ComputePipeline.destruct (p : ComputePipeline) : List Event × ComputePipeline :=
  if p.handle_ = VK_NULL_HANDLE then
    ([], p)
  else
    ([.destroyComputePipeline p.handle_], { p with handle_ := VK_NULL_HANDLE })

/-- PipelineLayoutCache, Pipeline.cpp lines 165-197: a mutex (implicit in
the trace), the device, and the Key (VkDescriptorSetLayout) to Value
(PipelineLayout) hash map, modelled as an association list. -/
structure PipelineLayoutCache where
  device_ : Nat
  cache_ : List (Nat × PipelineLayout)
deriving DecidableEq, Repr

/-- cache_.find(key) for the layout cache: first entry whose key compares
equal (raw reference identity). -/
def layoutFind : List (Nat × PipelineLayout) → Nat → Option PipelineLayout
  | [], _ => none
  | (k2, v) :: rest, key => if k2 == key then some v else layoutFind rest key

/-- PipelineLayoutCache::retrieve, lines 182-192: under the lock, look the
key up; on a miss construct a Value in place (vkCreatePipelineLayout draws
a fresh handle) and insert it; return the resident Value's handle.
Returns (returned handle, cache after, allocator after, trace). -/
def PipelineLayoutCache.retrieve (c : PipelineLayoutCache) (key : Nat) (fresh : Nat) :
    Nat × PipelineLayoutCache × Nat × List Event :=
  match layoutFind c.cache_ key with
  | some v => (v.handle_, c, fresh, [.lockAcquire, .lockRelease])
  | none =>
      let value : PipelineLayout := { device_ := c.device_, handle_ := fresh }
      (value.handle_,
       { c with cache_ := c.cache_ ++ [(key, value)] },
       fresh + 1,
       [.lockAcquire, .createPipelineLayout fresh, .lockRelease])

/-- PipelineLayoutCache::purge, lines 194-197: under the lock,
cache_.clear() destroys every resident Value. -/
def PipelineLayoutCache.purge (c : PipelineLayoutCache) : PipelineLayoutCache × List Event :=
  ({ c with cache_ := [] },
   [Event.lockAcquire] ++ c.cache_.map (fun p => Event.destroyPipelineLayout p.2.handle_)
     ++ [Event.lockRelease])

/-- PipelineLayoutCache::PipelineLayoutCache(PipelineLayoutCache&&),
lines 171-176: fresh mutex, copy device_, move the map under the source's
lock (the moved-from map is left empty). Returns (destination, source
after the move, trace of the source's lock). -/
def PipelineLayoutCache.moveCtor (other : PipelineLayoutCache) :
    PipelineLayoutCache × PipelineLayoutCache × List Event :=
  ({ device_ := other.device_, cache_ := other.cache_ },
   { other with cache_ := [] },
   [.lockAcquire, .lockRelease])

/-- PipelineLayoutCache::~PipelineLayoutCache, lines 178-180: purge(). -/
def PipelineLayoutCache.destruct (c : PipelineLayoutCache) : List Event :=
  (c.purge).2

/-- ComputePipelineCache, Pipeline.cpp lines 203-259: a mutex (implicit in
the trace), the device, the owned VkPipelineCache acceleration object, and
the Key (ComputePipeline::Descriptor) to Value (ComputePipeline) map. -/
structure ComputePipelineCache where
  device_ : Nat
  pipeline_cache_ : Nat
  cache_ : List (Descriptor × ComputePipeline)
deriving DecidableEq, Repr

/-- cache_.find(key) for the pipeline cache: first entry whose key
compares equal under operator==(Descriptor, Descriptor). -/
def pipelineFind : List (Descriptor × ComputePipeline) → Descriptor → Option ComputePipeline
  | [], _ => none
  | (k2, v) :: rest, key => if descriptorEq k2 key then some v else pipelineFind rest key

/-- ComputePipelineCache::retrieve, lines 244-255: under the lock, look
the key up; on a miss construct a Value via (device_, key,
pipeline_cache_) — vkCreateComputePipelines draws a fresh handle — and
insert it; return the resident Value's handle. -/
def ComputePipelineCache.retrieve (c : ComputePipelineCache) (key : Descriptor) (fresh : Nat) :
    Nat × ComputePipelineCache × Nat × List Event :=
  match pipelineFind c.cache_ key with
  | some v => (v.handle_, c, fresh, [.lockAcquire, .lockRelease])
  | none =>
      let value : ComputePipeline := { device_ := c.device_, handle_ := fresh }
      (value.handle_,
       { c with cache_ := c.cache_ ++ [(key, value)] },
       fresh + 1,
       [.lockAcquire, .createComputePipeline fresh, .lockRelease])

/-- ComputePipelineCache::purge, lines 257-259: cache_.clear() destroys
every resident Value. NOTE: the source acquires no lock here — the trace
faithfully contains no lock events. -/
def ComputePipelineCache.purge (c : ComputePipelineCache) : ComputePipelineCache × List Event :=
  ({ c with cache_ := [] },
   c.cache_.map (fun p => Event.destroyComputePipeline p.2.handle_))

/-- ComputePipelineCache::ComputePipelineCache(ComputePipelineCache&&),
lines 223-232: fresh mutex, copy device_ and pipeline_cache_, move the
map under the source's lock, then null the source's pipeline_cache_.
Returns (destination, source after the move, trace of the source's
lock). -/
def ComputePipelineCache.moveCtor (other : ComputePipelineCache) :
    ComputePipelineCache × ComputePipelineCache × List Event :=
  ({ device_ := other.device_, pipeline_cache_ := other.pipeline_cache_,
     cache_ := other.cache_ },
   { other with cache_ := [], pipeline_cache_ := VK_NULL_HANDLE },
   [.lockAcquire, .lockRelease])

/-- ComputePipelineCache::~ComputePipelineCache, lines 234-242: purge()
first (destroying every resident pipeline), then if pipeline_cache_ is
non-null call vkDestroyPipelineCache on it. -/
def ComputePipelineCache.destruct (c : ComputePipelineCache) : List Event :=
  (c.purge).2 ++
    (if c.pipeline_cache_ = VK_NULL_HANDLE then []
     else [Event.destroyPipelineCacheObj c.pipeline_cache_])

/-
Helper lemmas about key lookup and descriptor equality.
-/

theorem descriptorEq_iff (d1 d2 : Descriptor) : descriptorEq d1 d2 = true ↔ d1 = d2 := by
  cases d1 with
  | mk a1 b1 g1 =>
    cases d2 with
    | mk a2 b2 g2 =>
      cases g1
      cases g2
      simp [descriptorEq, uvec3.beq]
      tauto

theorem descriptorEq_refl (d : Descriptor) : descriptorEq d d = true := by
  simp [descriptorEq_iff]

theorem descriptorEq_false_of_ne (d1 d2 : Descriptor) (h : d1 ≠ d2) :
    descriptorEq d1 d2 = false := by
  cases hb : descriptorEq d1 d2
  · rfl
  · exact absurd ((descriptorEq_iff d1 d2).mp hb) h

theorem layoutFind_append_self (cache : List (Nat × PipelineLayout)) (k : Nat)
    (v : PipelineLayout) (h : layoutFind cache k = none) :
    layoutFind (cache ++ [(k, v)]) k = some v := by
  induction cache with
  | nil => simp [layoutFind]
  | cons p rest ih =>
    obtain ⟨k2, v2⟩ := p
    by_cases hk : k2 == k
    · simp [layoutFind, hk] at h
    · simp [layoutFind, hk] at h ⊢
      exact ih h

theorem pipelineFind_append_self (cache : List (Descriptor × ComputePipeline))
    (k : Descriptor) (v : ComputePipeline) (h : pipelineFind cache k = none) :
    pipelineFind (cache ++ [(k, v)]) k = some v := by
  induction cache with
  | nil => simp [pipelineFind, descriptorEq_refl]
  | cons p rest ih =>
    obtain ⟨k2, v2⟩ := p
    by_cases hk : descriptorEq k2 k
    · simp [pipelineFind, hk] at h
    · simp [pipelineFind, hk] at h ⊢
      exact ih h

theorem pipelineFind_append_other (cache : List (Descriptor × ComputePipeline))
    (k k2 : Descriptor) (v : ComputePipeline) (h : pipelineFind cache k2 = none)
    (hne : descriptorEq k k2 = false) :
    pipelineFind (cache ++ [(k, v)]) k2 = none := by
  induction cache with
  | nil => simp [pipelineFind, hne]
  | cons p rest ih =>
    obtain ⟨k3, v3⟩ := p
    by_cases hk : descriptorEq k3 k2
    · simp [pipelineFind, hk] at h
    · simp [pipelineFind, hk] at h ⊢
      exact ih h

/-- C6: constructing a ComputePipeline from a descriptor binds exactly one
compute shader stage (the single stage field of
VkComputePipelineCreateInfo) at the fixed entry symbol "main", and
supplies exactly three specialization constants with IDs 0, 1, 2 whose
values are the x, y, z components of the descriptor's launch-geometry
vector. -/
theorem computePipeline_ctor_stage_and_specialization (d : Descriptor) :
    (computePipelineCreateInfo d).stage.stage = VkShaderStageFlagBits.computeBit ∧
    (computePipelineCreateInfo d).stage.pName = "main" ∧
    (computePipelineCreateInfo d).stage.module = d.shader_module ∧
    (computePipelineCreateInfo d).layout = d.pipeline_layout ∧
    (computePipelineCreateInfo d).stage.pSpecializationInfo.mapEntryCount = 3 ∧
    (computePipelineCreateInfo d).stage.pSpecializationInfo.pMapEntries.length = 3 ∧
    ((computePipelineCreateInfo d).stage.pSpecializationInfo.pMapEntries.map
        VkSpecializationMapEntry.constantID) = [0, 1, 2] ∧
    specConstantValue (computePipelineCreateInfo d).stage.pSpecializationInfo 0 =
      some d.local_work_group.data0 ∧
    specConstantValue (computePipelineCreateInfo d).stage.pSpecializationInfo 1 =
      some d.local_work_group.data1 ∧
    specConstantValue (computePipelineCreateInfo d).stage.pSpecializationInfo 2 =
      some d.local_work_group.data2 :=
  ⟨rfl, rfl, rfl, rfl, rfl, rfl, rfl, rfl, rfl, rfl⟩

/-- C1 (divergence witness): ComputePipelineCache::retrieve acquires the
cache mutex on every path, but ComputePipelineCache::purge emits no lock
acquisition at all — purge does not take the lock that retrieve takes. -/
theorem computePipelineCache_purge_omits_lock :
    (∀ (c : ComputePipelineCache) (k : Descriptor) (fresh : Nat),
        Event.lockAcquire ∈ (c.retrieve k fresh).2.2.2) ∧
    (∀ c : ComputePipelineCache, Event.lockAcquire ∉ (c.purge).2) := by
  constructor
  · intro c k fresh
    unfold ComputePipelineCache.retrieve
    cases h : pipelineFind c.cache_ k <;> simp
  · intro c
    unfold ComputePipelineCache.purge
    simp

/-- Event is a destruction of the VkPipelineCache acceleration object. -/
def Event.isDestroyAccel : Event → Bool
  | .destroyPipelineCacheObj _ => true
  | _ => false

/-- C10: move-constructing a ComputePipelineCache transfers the
VkPipelineCache acceleration handle to the destination and nulls the
source's; destroying the moved-from source never releases the
acceleration object, and destroying the destination releases it exactly
once (whenever the original held one). -/
theorem computePipelineCache_move_transfers_accel (other : ComputePipelineCache) :
    (ComputePipelineCache.moveCtor other).1.pipeline_cache_ = other.pipeline_cache_ ∧
    (ComputePipelineCache.moveCtor other).2.1.pipeline_cache_ = VK_NULL_HANDLE ∧
    ((ComputePipelineCache.moveCtor other).2.1.destruct).countP Event.isDestroyAccel = 0 ∧
    ((ComputePipelineCache.moveCtor other).1.destruct).countP Event.isDestroyAccel =
      (if other.pipeline_cache_ = VK_NULL_HANDLE then 0 else 1) := by
  refine ⟨rfl, rfl, rfl, ?_⟩
  unfold ComputePipelineCache.destruct ComputePipelineCache.moveCtor ComputePipelineCache.purge
  by_cases h : other.pipeline_cache_ = VK_NULL_HANDLE <;>
    simp [h, List.countP_append, List.countP_map, Function.comp, Event.isDestroyAccel,
      List.countP_eq_zero]

/-- C8: retrieving a key that was resident in the source of a cache move
returns the pre-existing handle from the destination with zero creations,
and the moved-from source's map is empty; this holds for both the layout
cache and the compute pipeline cache. -/
theorem cache_move_preserves_entries :
    (∀ (other : PipelineLayoutCache) (k : Nat) (v : PipelineLayout) (fresh : Nat),
        layoutFind other.cache_ k = some v →
        ((PipelineLayoutCache.moveCtor other).1.retrieve k fresh).1 = v.handle_ ∧
        creations ((PipelineLayoutCache.moveCtor other).1.retrieve k fresh).2.2.2 = 0 ∧
        (PipelineLayoutCache.moveCtor other).2.1.cache_ = []) ∧
    (∀ (other : ComputePipelineCache) (k : Descriptor) (v : ComputePipeline) (fresh : Nat),
        pipelineFind other.cache_ k = some v →
        ((ComputePipelineCache.moveCtor other).1.retrieve k fresh).1 = v.handle_ ∧
        creations ((ComputePipelineCache.moveCtor other).1.retrieve k fresh).2.2.2 = 0 ∧
        (ComputePipelineCache.moveCtor other).2.1.cache_ = []) := by
  constructor
  · intro other k v fresh h
    unfold PipelineLayoutCache.retrieve PipelineLayoutCache.moveCtor
    simp only [h]
    exact ⟨trivial, rfl, trivial⟩
  · intro other k v fresh h
    unfold ComputePipelineCache.retrieve ComputePipelineCache.moveCtor
    simp only [h]
    exact ⟨trivial, rfl, trivial⟩

/-- C8 witness: a layout cache holding key 3 with handle 9 and a pipeline
cache holding a concrete descriptor with handle 11, both moved. -/
theorem cache_move_preserves_entries_witness :
    (layoutFind [(3, ⟨1, 9⟩)] 3 = some ⟨1, 9⟩ ∧
      ((PipelineLayoutCache.moveCtor ⟨1, [(3, ⟨1, 9⟩)]⟩).1.retrieve 3 10).1 = 9 ∧
      creations ((PipelineLayoutCache.moveCtor ⟨1, [(3, ⟨1, 9⟩)]⟩).1.retrieve 3 10).2.2.2 = 0 ∧
      (PipelineLayoutCache.moveCtor ⟨1, [(3, ⟨1, 9⟩)]⟩).2.1.cache_ = []) ∧
    (pipelineFind [(⟨5, 6, ⟨8, 8, 1⟩⟩, ⟨1, 11⟩)] ⟨5, 6, ⟨8, 8, 1⟩⟩ = some ⟨1, 11⟩ ∧
      ((ComputePipelineCache.moveCtor ⟨1, 7, [(⟨5, 6, ⟨8, 8, 1⟩⟩, ⟨1, 11⟩)]⟩).1.retrieve
          ⟨5, 6, ⟨8, 8, 1⟩⟩ 12).1 = 11 ∧
      creations ((ComputePipelineCache.moveCtor ⟨1, 7, [(⟨5, 6, ⟨8, 8, 1⟩⟩, ⟨1, 11⟩)]⟩).1.retrieve
          ⟨5, 6, ⟨8, 8, 1⟩⟩ 12).2.2.2 = 0 ∧
      (ComputePipelineCache.moveCtor ⟨1, 7, [(⟨5, 6, ⟨8, 8, 1⟩⟩, ⟨1, 11⟩)]⟩).2.1.cache_ = []) := by
  have h1 : layoutFind [(3, ⟨1, 9⟩)] 3 = some ⟨1, 9⟩ := by decide
  have h2 : pipelineFind [(⟨5, 6, ⟨8, 8, 1⟩⟩, ⟨1, 11⟩)] ⟨5, 6, ⟨8, 8, 1⟩⟩ = some ⟨1, 11⟩ := by
    decide
  exact ⟨⟨h1, (cache_move_preserves_entries).1 ⟨1, [(3, ⟨1, 9⟩)]⟩ 3 ⟨1, 9⟩ 10 h1⟩,
         ⟨h2, (cache_move_preserves_entries).2 ⟨1, 7, [(⟨5, 6, ⟨8, 8, 1⟩⟩, ⟨1, 11⟩)]⟩
            ⟨5, 6, ⟨8, 8, 1⟩⟩ ⟨1, 11⟩ 12 h2⟩⟩

/-- C2: for either cache, retrieving twice with structurally equal keys
(raw identity for layout keys, operator== for pipeline descriptors)
returns the identical handle with exactly one creation in total; the
second call creates nothing and leaves the cache map unchanged. -/
theorem retrieve_same_key_single_creation :
    (∀ (c : PipelineLayoutCache) (k1 k2 fresh : Nat),
        k1 = k2 →
        layoutFind c.cache_ k1 = none →
        ((c.retrieve k1 fresh).2.1.retrieve k2 (c.retrieve k1 fresh).2.2.1).1 =
          (c.retrieve k1 fresh).1 ∧
        creations ((c.retrieve k1 fresh).2.2.2 ++
          ((c.retrieve k1 fresh).2.1.retrieve k2 (c.retrieve k1 fresh).2.2.1).2.2.2) = 1 ∧
        creations (((c.retrieve k1 fresh).2.1.retrieve k2 (c.retrieve k1 fresh).2.2.1).2.2.2) = 0 ∧
        ((c.retrieve k1 fresh).2.1.retrieve k2 (c.retrieve k1 fresh).2.2.1).2.1 =
          (c.retrieve k1 fresh).2.1) ∧
    (∀ (c : ComputePipelineCache) (k1 k2 : Descriptor) (fresh : Nat),
        descriptorEq k1 k2 = true →
        pipelineFind c.cache_ k1 = none →
        ((c.retrieve k1 fresh).2.1.retrieve k2 (c.retrieve k1 fresh).2.2.1).1 =
          (c.retrieve k1 fresh).1 ∧
        creations ((c.retrieve k1 fresh).2.2.2 ++
          ((c.retrieve k1 fresh).2.1.retrieve k2 (c.retrieve k1 fresh).2.2.1).2.2.2) = 1 ∧
        creations (((c.retrieve k1 fresh).2.1.retrieve k2 (c.retrieve k1 fresh).2.2.1).2.2.2) = 0 ∧
        ((c.retrieve k1 fresh).2.1.retrieve k2 (c.retrieve k1 fresh).2.2.1).2.1 =
          (c.retrieve k1 fresh).2.1) := by
  constructor
  · intro c k1 k2 fresh hk h0
    subst hk
    have h2 : layoutFind (c.cache_ ++ [(k1, ⟨c.device_, fresh⟩)]) k1 =
        some ⟨c.device_, fresh⟩ := layoutFind_append_self _ _ _ h0
    unfold PipelineLayoutCache.retrieve
    simp only [h0]
    simp only [PipelineLayoutCache.retrieve, h2]
    refine ⟨?_, ?_, ?_, ?_⟩ <;> first | rfl | trivial
  · intro c k1 k2 fresh hk h0
    have hk2 : k1 = k2 := (descriptorEq_iff k1 k2).mp hk
    subst hk2
    have h2 : pipelineFind (c.cache_ ++ [(k1, ⟨c.device_, fresh⟩)]) k1 =
        some ⟨c.device_, fresh⟩ := pipelineFind_append_self _ _ _ h0
    unfold ComputePipelineCache.retrieve
    simp only [h0]
    simp only [ComputePipelineCache.retrieve, h2]
    refine ⟨?_, ?_, ?_, ?_⟩ <;> first | rfl | trivial

/-- C2 witness: both caches start empty; the same key is retrieved twice. -/
theorem retrieve_same_key_single_creation_witness :
    ((3 : Nat) = 3 ∧ layoutFind ([] : List (Nat × PipelineLayout)) 3 = none ∧
      ((PipelineLayoutCache.retrieve ⟨1, []⟩ 3 5).2.1.retrieve 3
          (PipelineLayoutCache.retrieve ⟨1, []⟩ 3 5).2.2.1).1 =
        (PipelineLayoutCache.retrieve ⟨1, []⟩ 3 5).1) ∧
    (descriptorEq ⟨1, 2, ⟨8, 8, 1⟩⟩ ⟨1, 2, ⟨8, 8, 1⟩⟩ = true ∧
      pipelineFind ([] : List (Descriptor × ComputePipeline)) ⟨1, 2, ⟨8, 8, 1⟩⟩ = none ∧
      ((ComputePipelineCache.retrieve ⟨1, 7, []⟩ ⟨1, 2, ⟨8, 8, 1⟩⟩ 5).2.1.retrieve
          ⟨1, 2, ⟨8, 8, 1⟩⟩
          (ComputePipelineCache.retrieve ⟨1, 7, []⟩ ⟨1, 2, ⟨8, 8, 1⟩⟩ 5).2.2.1).1 =
        (ComputePipelineCache.retrieve ⟨1, 7, []⟩ ⟨1, 2, ⟨8, 8, 1⟩⟩ 5).1) :=
  ⟨⟨rfl, rfl, (retrieve_same_key_single_creation.1 ⟨1, []⟩ 3 3 5 rfl rfl).1⟩,
   ⟨by decide, rfl,
    (retrieve_same_key_single_creation.2 ⟨1, 7, []⟩ ⟨1, 2, ⟨8, 8, 1⟩⟩ ⟨1, 2, ⟨8, 8, 1⟩⟩ 5
      (by decide) rfl).1⟩⟩

/-- Two pipeline descriptors differ in exactly one field: the layout, the
shader module, or a single component of the launch-geometry vector. -/
def differsInOneField (d1 d2 : Descriptor) : Prop :=
  (d1.pipeline_layout ≠ d2.pipeline_layout ∧ d1.shader_module = d2.shader_module ∧
    d1.local_work_group = d2.local_work_group) ∨
  (d1.pipeline_layout = d2.pipeline_layout ∧ d1.shader_module ≠ d2.shader_module ∧
    d1.local_work_group = d2.local_work_group) ∨
  (d1.pipeline_layout = d2.pipeline_layout ∧ d1.shader_module = d2.shader_module ∧
    d1.local_work_group.data0 ≠ d2.local_work_group.data0 ∧
    d1.local_work_group.data1 = d2.local_work_group.data1 ∧
    d1.local_work_group.data2 = d2.local_work_group.data2) ∨
  (d1.pipeline_layout = d2.pipeline_layout ∧ d1.shader_module = d2.shader_module ∧
    d1.local_work_group.data0 = d2.local_work_group.data0 ∧
    d1.local_work_group.data1 ≠ d2.local_work_group.data1 ∧
    d1.local_work_group.data2 = d2.local_work_group.data2) ∨
  (d1.pipeline_layout = d2.pipeline_layout ∧ d1.shader_module = d2.shader_module ∧
    d1.local_work_group.data0 = d2.local_work_group.data0 ∧
    d1.local_work_group.data1 = d2.local_work_group.data1 ∧
    d1.local_work_group.data2 ≠ d2.local_work_group.data2)

instance differsInOneField.decidable (d1 d2 : Descriptor) :
    Decidable (differsInOneField d1 d2) := by
  unfold differsInOneField
  infer_instance

theorem differsInOneField_ne (d1 d2 : Descriptor) (h : differsInOneField d1 d2) :
    d1 ≠ d2 := by
  rcases h with ⟨h, -, -⟩ | ⟨-, h, -⟩ | ⟨-, -, h, -, -⟩ | ⟨-, -, -, h, -⟩ | ⟨-, -, -, -, h⟩ <;>
    · intro heq
      subst heq
      exact h rfl

/-- C3: pipeline keys differing in exactly one field (layout, shader
module, or one launch-geometry component) compare unequal under
operator==, and retrieving both from a cache holding neither performs two
creations and returns distinct handles. -/
theorem retrieve_distinct_keys_two_creations (d1 d2 : Descriptor)
    (hdiff : differsInOneField d1 d2) (c : ComputePipelineCache) (fresh : Nat)
    (h1 : pipelineFind c.cache_ d1 = none) (h2 : pipelineFind c.cache_ d2 = none) :
    descriptorEq d1 d2 = false ∧
    ((c.retrieve d1 fresh).2.1.retrieve d2 (c.retrieve d1 fresh).2.2.1).1 ≠
      (c.retrieve d1 fresh).1 ∧
    creations ((c.retrieve d1 fresh).2.2.2 ++
      ((c.retrieve d1 fresh).2.1.retrieve d2 (c.retrieve d1 fresh).2.2.1).2.2.2) = 2 := by
  have hne : d1 ≠ d2 := differsInOneField_ne d1 d2 hdiff
  have hd : descriptorEq d1 d2 = false := descriptorEq_false_of_ne d1 d2 hne
  have h3 : pipelineFind (c.cache_ ++ [(d1, ⟨c.device_, fresh⟩)]) d2 = none :=
    pipelineFind_append_other _ d1 d2 _ h2 hd
  refine ⟨hd, ?_, ?_⟩
  · unfold ComputePipelineCache.retrieve
    simp only [h1]
    simp only [ComputePipelineCache.retrieve, h3]
    simp
  · unfold ComputePipelineCache.retrieve
    simp only [h1]
    simp only [ComputePipelineCache.retrieve, h3]
    rfl

/-- C3 witness: two descriptors differing only in the first
launch-geometry component, retrieved from an empty pipeline cache. -/
theorem retrieve_distinct_keys_two_creations_witness :
    differsInOneField ⟨1, 2, ⟨8, 8, 1⟩⟩ ⟨1, 2, ⟨16, 8, 1⟩⟩ ∧
    pipelineFind ([] : List (Descriptor × ComputePipeline)) ⟨1, 2, ⟨8, 8, 1⟩⟩ = none ∧
    pipelineFind ([] : List (Descriptor × ComputePipeline)) ⟨1, 2, ⟨16, 8, 1⟩⟩ = none ∧
    descriptorEq ⟨1, 2, ⟨8, 8, 1⟩⟩ ⟨1, 2, ⟨16, 8, 1⟩⟩ = false :=
  ⟨by decide, rfl, rfl,
   (retrieve_distinct_keys_two_creations ⟨1, 2, ⟨8, 8, 1⟩⟩ ⟨1, 2, ⟨16, 8, 1⟩⟩ (by decide)
     ⟨1, 7, []⟩ 5 rfl rfl).1⟩

/-- C4: for either cache, after purge() the map is empty, and retrieving
a previously resident key performs a new creation whose handle (drawn
fresh from the allocator) differs from the pre-purge handle. -/
theorem purge_then_retrieve_creates_fresh :
    (∀ (c : PipelineLayoutCache) (k : Nat) (v : PipelineLayout) (fresh : Nat),
        layoutFind c.cache_ k = some v →
        v.handle_ < fresh →
        (c.purge).1.cache_ = [] ∧
        creations ((c.purge).1.retrieve k fresh).2.2.2 = 1 ∧
        ((c.purge).1.retrieve k fresh).1 ≠ v.handle_) ∧
    (∀ (c : ComputePipelineCache) (k : Descriptor) (v : ComputePipeline) (fresh : Nat),
        pipelineFind c.cache_ k = some v →
        v.handle_ < fresh →
        (c.purge).1.cache_ = [] ∧
        creations ((c.purge).1.retrieve k fresh).2.2.2 = 1 ∧
        ((c.purge).1.retrieve k fresh).1 ≠ v.handle_) := by
  constructor
  · intro c k v fresh _ hv
    refine ⟨rfl, rfl, ?_⟩
    show fresh ≠ v.handle_
    omega
  · intro c k v fresh _ hv
    refine ⟨rfl, rfl, ?_⟩
    show fresh ≠ v.handle_
    omega

/-- C4 witness: each cache holds one entry with handle 2; after purge the
key is retrieved again with the allocator at 5. -/
theorem purge_then_retrieve_creates_fresh_witness :
    (layoutFind [(3, ⟨1, 2⟩)] 3 = some ⟨1, 2⟩ ∧ (2 : Nat) < 5 ∧
      ((PipelineLayoutCache.purge ⟨1, [(3, ⟨1, 2⟩)]⟩).1.retrieve 3 5).1 ≠ 2) ∧
    (pipelineFind [(⟨1, 2, ⟨8, 8, 1⟩⟩, ⟨1, 2⟩)] ⟨1, 2, ⟨8, 8, 1⟩⟩ = some ⟨1, 2⟩ ∧ (2 : Nat) < 5 ∧
      ((ComputePipelineCache.purge ⟨1, 7, [(⟨1, 2, ⟨8, 8, 1⟩⟩, ⟨1, 2⟩)]⟩).1.retrieve
          ⟨1, 2, ⟨8, 8, 1⟩⟩ 5).1 ≠ 2) :=
  ⟨⟨by decide, by decide,
    (purge_then_retrieve_creates_fresh.1 ⟨1, [(3, ⟨1, 2⟩)]⟩ 3 ⟨1, 2⟩ 5 (by decide)
      (by decide)).2.2⟩,
   ⟨by decide, by decide,
    (purge_then_retrieve_creates_fresh.2 ⟨1, 7, [(⟨1, 2, ⟨8, 8, 1⟩⟩, ⟨1, 2⟩)]⟩
      ⟨1, 2, ⟨8, 8, 1⟩⟩ ⟨1, 2⟩ 5 (by decide) (by decide)).2.2⟩⟩

theorem creations_append (a b : List Event) :
    creations (a ++ b) = creations a + creations b :=
  List.countP_append _ _ _

/-- N successive retrieve(k) calls on the compute pipeline cache. Every
retrieve holds the cache mutex for its entire body, so any concurrent
execution of N retrieve calls is some sequential order of them; since the
calls are identical, this function is that order. -/
def retrieveNCompute : Nat → ComputePipelineCache → Descriptor → Nat →
    List Nat × ComputePipelineCache × Nat × List Event
  | 0, c, _, fresh => ([], c, fresh, [])
  | n + 1, c, key, fresh =>
      let r := c.retrieve key fresh
      let rest := retrieveNCompute n r.2.1 key r.2.2.1
      (r.1 :: rest.1, rest.2.1, rest.2.2.1, r.2.2.2 ++ rest.2.2.2)

theorem retrieveNCompute_hit (n : Nat) :
    ∀ (c : ComputePipelineCache) (key : Descriptor) (fresh : Nat) (v : ComputePipeline),
    pipelineFind c.cache_ key = some v →
    (retrieveNCompute n c key fresh).1 = List.replicate n v.handle_ ∧
    (retrieveNCompute n c key fresh).2.1 = c ∧
    (retrieveNCompute n c key fresh).2.2.1 = fresh ∧
    creations (retrieveNCompute n c key fresh).2.2.2 = 0 := by
  induction n with
  | zero => intro c key fresh v hv; exact ⟨rfl, rfl, rfl, rfl⟩
  | succ n ih =>
    intro c key fresh v hv
    have hr : c.retrieve key fresh = (v.handle_, c, fresh, [.lockAcquire, .lockRelease]) := by
      simp [ComputePipelineCache.retrieve, hv]
    obtain ⟨h1, h2, h3, h4⟩ := ih c key fresh v hv
    simp only [creations] at h4
    unfold retrieveNCompute
    simp only [hr]
    refine ⟨?_, h2, h3, ?_⟩
    · simp [List.replicate_succ, h1]
    · simp [creations, List.countP_cons, h4, Event.isCreate]

/-- C9: N retrieve(k) calls (N ≥ 1) on a compute pipeline cache not yet
holding k — each call atomic under the cache mutex, so any concurrent
schedule is such a sequence — perform exactly one creation, and every
call observes the same handle (the freshly created one). -/
theorem concurrent_retrieve_single_creation (c : ComputePipelineCache) (k : Descriptor)
    (fresh N : Nat) (hN : 1 ≤ N) (h0 : pipelineFind c.cache_ k = none) :
    creations (retrieveNCompute N c k fresh).2.2.2 = 1 ∧
    (retrieveNCompute N c k fresh).1.length = N ∧
    ∀ h ∈ (retrieveNCompute N c k fresh).1, h = fresh := by
  obtain ⟨n, rfl⟩ : ∃ n, N = n + 1 := ⟨N - 1, by omega⟩
  have hr : c.retrieve k fresh =
      (fresh, ⟨c.device_, c.pipeline_cache_, c.cache_ ++ [(k, ⟨c.device_, fresh⟩)]⟩,
        fresh + 1, [.lockAcquire, .createComputePipeline fresh, .lockRelease]) := by
    simp [ComputePipelineCache.retrieve, h0]
  have hfind : pipelineFind (c.cache_ ++ [(k, ⟨c.device_, fresh⟩)]) k =
      some ⟨c.device_, fresh⟩ := pipelineFind_append_self _ _ _ h0
  obtain ⟨h1, h2, h3, h4⟩ :=
    retrieveNCompute_hit n ⟨c.device_, c.pipeline_cache_,
      c.cache_ ++ [(k, ⟨c.device_, fresh⟩)]⟩ k (fresh + 1) ⟨c.device_, fresh⟩ hfind
  simp only [creations] at h4
  unfold retrieveNCompute
  simp only [hr]
  refine ⟨?_, ?_, ?_⟩
  · simp [creations, List.countP_cons, h4, Event.isCreate]
  · simp [h1]
  · intro h hmem
    simp only [List.mem_cons, h1] at hmem
    rcases hmem with rfl | hm
    · rfl
    · exact List.eq_of_mem_replicate hm

/-- C9 witness: three retrieve calls for one descriptor on an empty
pipeline cache create exactly once and all observe handle 5. -/
theorem concurrent_retrieve_single_creation_witness :
    (1 : Nat) ≤ 3 ∧
    pipelineFind ([] : List (Descriptor × ComputePipeline)) ⟨1, 2, ⟨8, 8, 1⟩⟩ = none ∧
    creations (retrieveNCompute 3 ⟨1, 7, []⟩ ⟨1, 2, ⟨8, 8, 1⟩⟩ 5).2.2.2 = 1 :=
  ⟨by decide, rfl,
   (concurrent_retrieve_single_creation ⟨1, 7, []⟩ ⟨1, 2, ⟨8, 8, 1⟩⟩ 5 3 (by decide) rfl).1⟩

theorem append_index_order {α : Type} {l A B : List α} {P Q : α → Prop}
    (hl : l = A ++ B)
    (hA : ∀ x ∈ A, P x) (hB : ∀ x ∈ B, Q x)
    (hPQ : ∀ x, P x → Q x → False)
    (i j : Nat) (hi : i < l.length) (hj : j < l.length)
    (hPi : P (l.get ⟨i, hi⟩)) (hQj : Q (l.get ⟨j, hj⟩)) : i < j := by
  subst hl
  have hlen : (A ++ B).length = A.length + B.length := List.length_append _ _
  have hiA : i < A.length := by
    by_contra hc
    push_neg at hc
    have hib : i - A.length < B.length := by omega
    have he : (A ++ B).get ⟨i, hi⟩ = B.get ⟨i - A.length, hib⟩ :=
      List.getElem_append_right hc
    have hmem : (A ++ B).get ⟨i, hi⟩ ∈ B := by
      rw [he]
      exact List.get_mem _ _ _
    exact hPQ _ hPi (hB _ hmem)
  have hjA : A.length ≤ j := by
    by_contra hc
    push_neg at hc
    have he : (A ++ B).get ⟨j, hj⟩ = A.get ⟨j, hc⟩ :=
      List.getElem_append_left hc
    have hmem : (A ++ B).get ⟨j, hj⟩ ∈ A := by
      rw [he]
      exact List.get_mem _ _ _
    exact hPQ _ (hA _ hmem) hQj
  omega

/-- C5: in the trace of the ComputePipelineCache destructor, every
destruction of a resident pipeline occurs strictly before the destruction
of the cache-owned VkPipelineCache acceleration object: purge runs first,
and only then is the acceleration object released. -/
theorem destructor_destroys_pipelines_before_accel (c : ComputePipelineCache)
    (i j : Nat) (hi : i < (c.destruct).length) (hj : j < (c.destruct).length)
    (hpi : ∃ h, (c.destruct).get ⟨i, hi⟩ = Event.destroyComputePipeline h)
    (hpj : ∃ h, (c.destruct).get ⟨j, hj⟩ = Event.destroyPipelineCacheObj h) :
    i < j := by
  refine append_index_order (A := (c.purge).2)
      (B := if c.pipeline_cache_ = VK_NULL_HANDLE then []
            else [Event.destroyPipelineCacheObj c.pipeline_cache_])
      (P := fun e => ∃ h, e = Event.destroyComputePipeline h)
      (Q := fun e => ∃ h, e = Event.destroyPipelineCacheObj h)
      rfl ?_ ?_ ?_ i j hi hj hpi hpj
  · intro x hx
    simp only [ComputePipelineCache.purge, List.mem_map] at hx
    obtain ⟨p, -, rfl⟩ := hx
    exact ⟨_, rfl⟩
  · intro x hx
    by_cases hpc : c.pipeline_cache_ = VK_NULL_HANDLE
    · simp [hpc] at hx
    · simp [hpc] at hx
      exact ⟨_, hx⟩
  · rintro x ⟨h1, rfl⟩ ⟨h2, heq⟩
    exact Event.noConfusion heq

/-- C5 witness: a cache with one resident pipeline (handle 5) and the
acceleration object 7; in its destructor trace the pipeline destroy at
index 0 precedes the acceleration release at index 1. -/
theorem destructor_order_witness :
    (∃ h, (ComputePipelineCache.destruct ⟨1, 7, [(⟨1, 2, ⟨8, 8, 1⟩⟩, ⟨1, 5⟩)]⟩).get
        ⟨0, by decide⟩ = Event.destroyComputePipeline h) ∧
    (∃ h, (ComputePipelineCache.destruct ⟨1, 7, [(⟨1, 2, ⟨8, 8, 1⟩⟩, ⟨1, 5⟩)]⟩).get
        ⟨1, by decide⟩ = Event.destroyPipelineCacheObj h) ∧
    (0 : Nat) < 1 :=
  ⟨⟨5, rfl⟩, ⟨7, rfl⟩,
   destructor_destroys_pipelines_before_accel ⟨1, 7, [(⟨1, 2, ⟨8, 8, 1⟩⟩, ⟨1, 5⟩)]⟩ 0 1
     (by decide) (by decide) ⟨5, rfl⟩ ⟨7, rfl⟩⟩

/-- An operation on a collection of live handle objects: move-construct a
new object from the object at index i (the source stays in the collection
as a moved-from object), or run the destructor of the object at index i. -/
inductive HOp where
  | move (i : Nat)
  | destroy (i : Nat)
deriving DecidableEq, Repr

/-- One move or destructor step on a collection of PipelineLayout
objects, built from PipelineLayout.moveCtor and PipelineLayout.destruct;
returns the new collection and the emitted destroy events. -/
def layoutStep (s : List PipelineLayout) : HOp → List PipelineLayout × List Event
  | .move i =>
      match s[i]? with
      | none => (s, [])
      | some p => ((s.set i (p.moveCtor).2) ++ [(p.moveCtor).1], [])
  | .destroy i =>
      match s[i]? with
      | none => (s, [])
      | some p => (s.set i (p.destruct).2, (p.destruct).1)

/-- A sequence of moves and destructions on PipelineLayout objects. -/
def layoutRun (s : List PipelineLayout) : List HOp → List PipelineLayout × List Event
  | [] => (s, [])
  | op :: ops =>
      let r := layoutStep s op
      let rest := layoutRun r.1 ops
      (rest.1, r.2 ++ rest.2)

/-- One move or destructor step on a collection of ComputePipeline
objects. -/
def pipelineStep (s : List ComputePipeline) : HOp → List ComputePipeline × List Event
  | .move i =>
      match s[i]? with
      | none => (s, [])
      | some p => ((s.set i (p.moveCtor).2) ++ [(p.moveCtor).1], [])
  | .destroy i =>
      match s[i]? with
      | none => (s, [])
      | some p => (s.set i (p.destruct).2, (p.destruct).1)

/-- A sequence of moves and destructions on ComputePipeline objects. -/
def pipelineRun (s : List ComputePipeline) : List HOp → List ComputePipeline × List Event
  | [] => (s, [])
  | op :: ops =>
      let r := pipelineStep s op
      let rest := pipelineRun r.1 ops
      (rest.1, r.2 ++ rest.2)

theorem count_set_nat (l : List Nat) (i x v : Nat) (hi : i < l.length) :
    (l.set i x).count v + (if l.get ⟨i, hi⟩ = v then 1 else 0) =
    l.count v + (if x = v then 1 else 0) := by
  induction l generalizing i with
  | nil => cases hi
  | cons a t ih =>
    cases i with
    | zero =>
      simp [List.count_cons]
      split_ifs <;> omega
    | succ n =>
      have hn : n < t.length := by simpa using hi
      have hrec := ih n hn
      simp only [List.get_eq_getElem] at hrec ⊢
      simp only [List.set_cons_succ, List.count_cons, List.getElem_cons_succ]
      split_ifs at hrec ⊢ <;> omega

theorem layoutStep_count (s : List PipelineLayout) (op : HOp) (v : Nat)
    (hv : v ≠ VK_NULL_HANDLE) :
    ((layoutStep s op).2).count (Event.destroyPipelineLayout v) +
      (((layoutStep s op).1).map PipelineLayout.handle_).count v =
      (s.map PipelineLayout.handle_).count v := by
  simp only [VK_NULL_HANDLE] at hv
  cases op with
  | move i =>
    cases h : s[i]? with
    | none => simp [layoutStep, h]
    | some p =>
      obtain ⟨hlt, hget⟩ := List.getElem?_eq_some.mp h
      have hmlt : i < (s.map PipelineLayout.handle_).length := by simpa using hlt
      have hkey := count_set_nat (s.map PipelineLayout.handle_) i 0 v hmlt
      have hgm : (s.map PipelineLayout.handle_).get ⟨i, hmlt⟩ = p.handle_ := by
        simp only [List.get_eq_getElem, List.getElem_map]
        rw [hget]
      rw [hgm] at hkey
      simp only [layoutStep, h]
      simp [PipelineLayout.moveCtor, VK_NULL_HANDLE, List.map_append, List.map_set,
        List.count_append, List.count_cons, beq_iff_eq]
      split_ifs at hkey ⊢ <;> omega
  | destroy i =>
    cases h : s[i]? with
    | none => simp [layoutStep, h]
    | some p =>
      obtain ⟨hlt, hget⟩ := List.getElem?_eq_some.mp h
      have hmlt : i < (s.map PipelineLayout.handle_).length := by simpa using hlt
      have hkey := count_set_nat (s.map PipelineLayout.handle_) i 0 v hmlt
      have hgm : (s.map PipelineLayout.handle_).get ⟨i, hmlt⟩ = p.handle_ := by
        simp only [List.get_eq_getElem, List.getElem_map]
        rw [hget]
      rw [hgm] at hkey
      simp only [layoutStep, h]
      by_cases hp : p.handle_ = VK_NULL_HANDLE
      · simp only [VK_NULL_HANDLE] at hp
        simp [PipelineLayout.destruct, VK_NULL_HANDLE, hp, List.map_set]
        split_ifs at hkey <;> omega
      · simp only [VK_NULL_HANDLE] at hp
        simp [PipelineLayout.destruct, VK_NULL_HANDLE, hp, List.map_set, List.count_cons,
          beq_iff_eq]
        split_ifs at hkey ⊢ <;> omega

theorem layoutRun_count (ops : List HOp) :
    ∀ (s : List PipelineLayout) (v : Nat), v ≠ VK_NULL_HANDLE →
    ((layoutRun s ops).2).count (Event.destroyPipelineLayout v) +
      (((layoutRun s ops).1).map PipelineLayout.handle_).count v =
      (s.map PipelineLayout.handle_).count v := by
  induction ops with
  | nil =>
    intro s v hv
    simp [layoutRun]
  | cons op ops ih =>
    intro s v hv
    have h1 := layoutStep_count s op v hv
    have h2 := ih (layoutStep s op).1 v hv
    simp only [layoutRun, List.count_append]
    omega

theorem pipelineStep_count (s : List ComputePipeline) (op : HOp) (v : Nat)
    (hv : v ≠ VK_NULL_HANDLE) :
    ((pipelineStep s op).2).count (Event.destroyComputePipeline v) +
      (((pipelineStep s op).1).map ComputePipeline.handle_).count v =
      (s.map ComputePipeline.handle_).count v := by
  simp only [VK_NULL_HANDLE] at hv
  cases op with
  | move i =>
    cases h : s[i]? with
    | none => simp [pipelineStep, h]
    | some p =>
      obtain ⟨hlt, hget⟩ := List.getElem?_eq_some.mp h
      have hmlt : i < (s.map ComputePipeline.handle_).length := by simpa using hlt
      have hkey := count_set_nat (s.map ComputePipeline.handle_) i 0 v hmlt
      have hgm : (s.map ComputePipeline.handle_).get ⟨i, hmlt⟩ = p.handle_ := by
        simp only [List.get_eq_getElem, List.getElem_map]
        rw [hget]
      rw [hgm] at hkey
      simp only [pipelineStep, h]
      simp [ComputePipeline.moveCtor, VK_NULL_HANDLE, List.map_append, List.map_set,
        List.count_append, List.count_cons, beq_iff_eq]
      split_ifs at hkey ⊢ <;> omega
  | destroy i =>
    cases h : s[i]? with
    | none => simp [pipelineStep, h]
    | some p =>
      obtain ⟨hlt, hget⟩ := List.getElem?_eq_some.mp h
      have hmlt : i < (s.map ComputePipeline.handle_).length := by simpa using hlt
      have hkey := count_set_nat (s.map ComputePipeline.handle_) i 0 v hmlt
      have hgm : (s.map ComputePipeline.handle_).get ⟨i, hmlt⟩ = p.handle_ := by
        simp only [List.get_eq_getElem, List.getElem_map]
        rw [hget]
      rw [hgm] at hkey
      simp only [pipelineStep, h]
      by_cases hp : p.handle_ = VK_NULL_HANDLE
      · simp only [VK_NULL_HANDLE] at hp
        simp [ComputePipeline.destruct, VK_NULL_HANDLE, hp, List.map_set]
        split_ifs at hkey <;> omega
      · simp only [VK_NULL_HANDLE] at hp
        simp [ComputePipeline.destruct, VK_NULL_HANDLE, hp, List.map_set, List.count_cons,
          beq_iff_eq]
        split_ifs at hkey ⊢ <;> omega

theorem pipelineRun_count (ops : List HOp) :
    ∀ (s : List ComputePipeline) (v : Nat), v ≠ VK_NULL_HANDLE →
    ((pipelineRun s ops).2).count (Event.destroyComputePipeline v) +
      (((pipelineRun s ops).1).map ComputePipeline.handle_).count v =
      (s.map ComputePipeline.handle_).count v := by
  induction ops with
  | nil =>
    intro s v hv
    simp [pipelineRun]
  | cons op ops ih =>
    intro s v hv
    have h1 := pipelineStep_count s op v hv
    have h2 := ih (pipelineStep s op).1 v hv
    simp only [pipelineRun, List.count_append]
    omega

/-- C7: for both handle types, move-construction copies the raw handle to
the destination and resets the source to VK_NULL_HANDLE; destruction
emits a destroy call iff the handle is non-empty and always leaves the
handle empty; and consequently, over any sequence of moves and
destructions starting from objects whose non-null handles are pairwise
distinct, no native handle value is destroyed more than once. -/
theorem handle_move_destroy_no_double_release :
    (∀ p : PipelineLayout,
        (p.moveCtor).1.handle_ = p.handle_ ∧ (p.moveCtor).1.device_ = p.device_ ∧
        (p.moveCtor).2.handle_ = VK_NULL_HANDLE) ∧
    (∀ p : ComputePipeline,
        (p.moveCtor).1.handle_ = p.handle_ ∧ (p.moveCtor).1.device_ = p.device_ ∧
        (p.moveCtor).2.handle_ = VK_NULL_HANDLE) ∧
    (∀ p : PipelineLayout,
        (p.handle_ ≠ VK_NULL_HANDLE →
          (p.destruct).1 = [Event.destroyPipelineLayout p.handle_]) ∧
        (p.handle_ = VK_NULL_HANDLE → (p.destruct).1 = []) ∧
        (p.destruct).2.handle_ = VK_NULL_HANDLE) ∧
    (∀ p : ComputePipeline,
        (p.handle_ ≠ VK_NULL_HANDLE →
          (p.destruct).1 = [Event.destroyComputePipeline p.handle_]) ∧
        (p.handle_ = VK_NULL_HANDLE → (p.destruct).1 = []) ∧
        (p.destruct).2.handle_ = VK_NULL_HANDLE) ∧
    (∀ (s : List PipelineLayout) (ops : List HOp),
        (∀ w, w ≠ VK_NULL_HANDLE → (s.map PipelineLayout.handle_).count w ≤ 1) →
        ∀ w, w ≠ VK_NULL_HANDLE →
        ((layoutRun s ops).2).count (Event.destroyPipelineLayout w) ≤ 1) ∧
    (∀ (s : List ComputePipeline) (ops : List HOp),
        (∀ w, w ≠ VK_NULL_HANDLE → (s.map ComputePipeline.handle_).count w ≤ 1) →
        ∀ w, w ≠ VK_NULL_HANDLE →
        ((pipelineRun s ops).2).count (Event.destroyComputePipeline w) ≤ 1) := by
  refine ⟨?_, ?_, ?_, ?_, ?_, ?_⟩
  · intro p
    exact ⟨rfl, rfl, rfl⟩
  · intro p
    exact ⟨rfl, rfl, rfl⟩
  · intro p
    refine ⟨?_, ?_, ?_⟩
    · intro hp
      simp [PipelineLayout.destruct, hp]
    · intro hp
      simp [PipelineLayout.destruct, hp]
    · by_cases hp : p.handle_ = VK_NULL_HANDLE <;> simp [PipelineLayout.destruct, hp]
  · intro p
    refine ⟨?_, ?_, ?_⟩
    · intro hp
      simp [ComputePipeline.destruct, hp]
    · intro hp
      simp [ComputePipeline.destruct, hp]
    · by_cases hp : p.handle_ = VK_NULL_HANDLE <;> simp [ComputePipeline.destruct, hp]
  · intro s ops hinv w hw
    have h1 := layoutRun_count ops s w hw
    have h2 := hinv w hw
    omega
  · intro s ops hinv w hw
    have h1 := pipelineRun_count ops s w hw
    have h2 := hinv w hw
    omega

/-- C7 witness: one layout object with handle 5 and one pipeline object
with handle 6; move then destroy both resulting objects — handle 5 (and
6) is released at most once. -/
theorem handle_no_double_release_witness :
    ((⟨1, 5⟩ : PipelineLayout).handle_ ≠ VK_NULL_HANDLE ∧
      ((⟨1, 5⟩ : PipelineLayout).destruct).1 = [Event.destroyPipelineLayout 5]) ∧
    ((layoutRun [⟨1, 5⟩] [HOp.move 0, HOp.destroy 0, HOp.destroy 1]).2).count
        (Event.destroyPipelineLayout 5) ≤ 1 ∧
    ((pipelineRun [⟨1, 6⟩] [HOp.move 0, HOp.destroy 0, HOp.destroy 1]).2).count
        (Event.destroyComputePipeline 6) ≤ 1 :=
  ⟨⟨by decide, (handle_move_destroy_no_double_release.2.2.1 ⟨1, 5⟩).1 (by decide)⟩,
   handle_move_destroy_no_double_release.2.2.2.2.1 [⟨1, 5⟩]
     [HOp.move 0, HOp.destroy 0, HOp.destroy 1]
     (by intro w hw; exact le_trans (List.count_le_length _ _) (by simp)) 5 (by decide),
   handle_move_destroy_no_double_release.2.2.2.2.2 [⟨1, 6⟩]
     [HOp.move 0, HOp.destroy 0, HOp.destroy 1]
     (by intro w hw; exact le_trans (List.count_le_length _ _) (by simp)) 6 (by decide)⟩
